import Mathlib

/-
Verification of the passkey relying-party orchestrator (webauthnService.js,
storage.js, backendService.js, routes/passkey.js) against its specification.
JavaScript objects keyed by string become association lists; timestamps
become explicit Nat parameters; the external WebAuthn verification primitive
and the backend HTTP call become explicit outcome parameters.
-/

namespace PasskeyImp

/-- Lower-casing of ASCII strings, modelling the JavaScript
String.prototype.toLowerCase calls on platform tags (written over the
character list so that it evaluates by kernel reduction). -/
def jsToLower (s : String) : String := String.mk (s.data.map Char.toLower)

/-- Boolean test that s starts with pre, modelling the JavaScript
String.prototype.startsWith (written over the character lists so that it
evaluates by kernel reduction). -/
def strStartsWith (s pre : String) : Bool := pre.data.isPrefixOf s.data

/-- Lookup in a string-keyed association list, modelling property access
obj[key] on a JavaScript object. -/
def alookup {α : Type} : List (String × α) → String → Option α
  | [], _ => none
  | (k, v) :: rest, key => if k = key then some v else alookup rest key

/-- Insert or replace in a string-keyed association list, modelling the
JavaScript assignment obj[key] = value. -/
def ains {α : Type} : List (String × α) → String → α → List (String × α)
  | [], key, v => [(key, v)]
  | (k, w) :: rest, key, v =>
      if k = key then (k, v) :: rest else (k, w) :: ains rest key v

/-- Removal from a string-keyed association list, modelling the JavaScript
statement delete obj[key] (object keys are unique, so removing every pair
with that key is the same operation). -/
def aerase {α : Type} (l : List (String × α)) (key : String) : List (String × α) :=
  l.filter (fun kv => kv.1 != key)

/-- Boolean success test for an Except value. -/
def exceptIsOk {ε α : Type} : Except ε α → Bool
  | .ok _ => true
  | .error _ => false

/-- A stored passkey record (storage.js keeps these in passkeys.json keyed by
passkeyId; savePasskey always stamps the id, createdAt and lastUsed fields). -/
structure Passkey where
  userId : String
  username : String
  displayName : String
  credentialID : List Nat
  credentialPublicKey : List Nat
  counter : Nat
  credentialDeviceType : String
  credentialBackedUp : Bool
  transports : Option (List String)
  aaguid : String
  platform : String
  registeredFrom : String
  id : String
  createdAt : Nat
  lastUsed : Nat
deriving Repr, DecidableEq

/-- A stored challenge session (saveChallenge in storage.js; registration
sessions carry userId/username/displayName, authentication sessions carry an
optional userId only). -/
structure Session where
  challenge : String
  userId : Option String
  username : Option String
  displayName : Option String
  platform : String
  type : String
  createdAt : Nat
  expiresAt : Nat
deriving Repr, DecidableEq

/-- A stored user profile record (saveUser in storage.js). -/
structure User where
  username : Option String
  displayName : Option String
  id : String
  createdAt : Nat
  updatedAt : Nat
deriving Repr, DecidableEq

/-- The whole persistent state: the three JSON files of storage.js. -/
structure Store where
  passkeys : List (String × Passkey)
  users : List (String × User)
  sessions : List (String × Session)
deriving Repr, DecidableEq

def emptyStore : Store := { passkeys := [], users := [], sessions := [] }

/-- storage.getPasskeys(userId): all stored passkeys, filtered by owner when a
userId is supplied. -/
def getPasskeys (st : Store) (userId : Option String) : List Passkey :=
  match userId with
  | some uid => (st.passkeys.map Prod.snd).filter (fun p => p.userId == uid)
  | none => st.passkeys.map Prod.snd

/-- storage.savePasskey(passkeyId, passkeyData): spreads the supplied data and
then unconditionally stamps id, createdAt and lastUsed with the current time
(the source sets createdAt to new Date() on every save, even for an existing
record). -/
def savePasskey (st : Store) (now : Nat) (passkeyId : String) (data : Passkey) : Store :=
  let stamped : Passkey := { data with id := passkeyId, createdAt := now, lastUsed := now }
  { st with passkeys := ains st.passkeys passkeyId stamped }

/-- storage.updatePasskeyLastUsed(passkeyId): refreshes lastUsed when the
record exists, otherwise does nothing. -/
def updatePasskeyLastUsed (st : Store) (now : Nat) (passkeyId : String) : Store :=
  match alookup st.passkeys passkeyId with
  | none => st
  | some p => { st with passkeys := ains st.passkeys passkeyId { p with lastUsed := now } }

/-- storage.saveUser(userId, userData): upsert that preserves createdAt of an
existing record and refreshes updatedAt. -/
def saveUser (st : Store) (now : Nat) (userId : String)
    (username displayName : Option String) : Store :=
  let createdAt :=
    match alookup st.users userId with
    | some u => u.createdAt
    | none => now
  let record : User :=
    { username := username, displayName := displayName, id := userId,
      createdAt := createdAt, updatedAt := now }
  { st with users := ains st.users userId record }

/-- storage.saveChallenge(sessionId, challengeData): stores the session with
createdAt = now and expiresAt = now + 5 minutes (in milliseconds). -/
def saveChallenge (st : Store) (now : Nat) (sessionId : String) (challenge : String)
    (userId username displayName : Option String) (platform ty : String) : Store :=
  let session : Session :=
    { challenge := challenge, userId := userId, username := username,
      displayName := displayName, platform := platform, type := ty,
      createdAt := now, expiresAt := now + 5 * 60 * 1000 }
  { st with sessions := ains st.sessions sessionId session }

/-- storage.deleteChallenge(sessionId). -/
def deleteChallenge (st : Store) (sessionId : String) : Store :=
  { st with sessions := aerase st.sessions sessionId }

/-- storage.getChallenge(sessionId): returns null for an absent session; an
expired session (now strictly past expiresAt) is deleted on the spot and also
reported as null. Returns the possibly changed store alongside the result. -/
def getChallenge (st : Store) (now : Nat) (sessionId : String) : Option Session × Store :=
  match alookup st.sessions sessionId with
  | none => (none, st)
  | some s => if s.expiresAt < now then (none, deleteChallenge st sessionId) else (some s, st)

/-- storage.cleanupExpiredSessions(): removes every session whose expiresAt is
strictly before now; reports whether anything was removed. -/
def cleanupExpiredSessions (st : Store) (now : Nat) : Store × Bool :=
  let kept := st.sessions.filter (fun kv => !(decide (kv.2.expiresAt < now)))
  ({ st with sessions := kept }, decide (kept.length ≠ st.sessions.length))

/-- The WebAuthnService configuration fields used by the ceremony logic. -/
structure Config where
  rpName : String
  rpID : String
  origin : String
  timeout : Nat
  allowedOrigins : List String
deriving Repr, DecidableEq

/-- The constructor defaults of WebAuthnService. -/
def defaultConfig : Config :=
  { rpName := "Passkey Backend API"
    rpID := "localhost"
    origin := "http://localhost:3000"
    timeout := 60000
    allowedOrigins :=
      ["http://localhost:3000", "https://localhost:3000",
       "android:apk-key-hash:REPLACE_WITH_YOUR_ANDROID_APP_SIGNATURE_HASH",
       "ios:bundle-id:REPLACE_WITH_YOUR_IOS_BUNDLE_ID"] }

/-- webauthnService.isValidOrigin(origin, platform): exact allow-list match,
otherwise a per-platform shape check on the lower-cased platform tag. -/
def isValidOrigin (cfg : Config) (origin platform : String) : Bool :=
  if cfg.allowedOrigins.contains origin then true
  else
    match jsToLower platform with
    | "android" => strStartsWith origin "android:apk-key-hash:"
    | "ios" => strStartsWith origin "ios:bundle-id:"
    | "web" => strStartsWith origin "http://" || strStartsWith origin "https://"
    | _ => false

/-- webauthnService.getTransportsForPlatform(originalTransports, platform):
the original transports when the credential declared any (none models the
JavaScript null/undefined), otherwise the platform default order. -/
def getTransportsForPlatform (originalTransports : Option (List String))
    (platform : String) : List String :=
  match jsToLower platform with
  | "android" => originalTransports.getD ["internal", "hybrid", "nfc", "ble", "usb"]
  | "ios" => originalTransports.getD ["internal", "hybrid"]
  | _ => originalTransports.getD ["internal", "hybrid", "usb", "nfc", "ble"]

/-- The typed errors thrown by the ceremony operations. -/
inductive WebAuthnError where
  | sessionExpiredOrInvalid
  | userMismatch
  | invalidOrigin (platform origin : String)
  | registrationVerificationFailed
  | authenticationVerificationFailed
  | passkeyNotFound
deriving Repr, DecidableEq

/-- Output of the external verifyRegistrationResponse primitive: the verified
flag and the registrationInfo fields the service copies into the credential. -/
structure RegVerification where
  verified : Bool
  credentialID : List Nat
  credentialPublicKey : List Nat
  counter : Nat
  credentialDeviceType : String
  credentialBackedUp : Bool
  aaguid : String
deriving Repr, DecidableEq

/-- Output of the external verifyAuthenticationResponse primitive. -/
structure AuthVerification where
  verified : Bool
  newCounter : Nat
deriving Repr, DecidableEq

/-- Result record of a successful verifyRegistration (the source returns the
pre-storage passkeyData object; its id/createdAt/lastUsed stamps are added by
savePasskey inside the store, so here they are reported as stamped). -/
structure RegResult where
  passkeyId : String
  passkey : Passkey
deriving Repr, DecidableEq

/-- Result record of a successful verifyAuthentication. -/
structure AuthResult where
  userId : String
  username : String
  passkeyId : String
deriving Repr, DecidableEq

/-- webauthnService.verifyRegistration(sessionId, credential, userId, origin,
platform). The external primitive outcome is the verification parameter and
the fresh uuid for the new record is newPasskeyId; credTransports models
credential.response.transports. Returns the result or thrown error together
with the updated store. -/
def verifyRegistration (cfg : Config) (st : Store) (now : Nat) (sessionId : String)
    (credTransports : Option (List String)) (userId : String) (origin : Option String)
    (platform : String) (verification : RegVerification) (newPasskeyId : String) :
    Except WebAuthnError RegResult × Store :=
  match getChallenge st now sessionId with
  | (none, st1) => (.error .sessionExpiredOrInvalid, st1)
  | (some challengeData, st1) =>
    if challengeData.type ≠ "registration" then (.error .sessionExpiredOrInvalid, st1)
    else if challengeData.userId ≠ some userId then (.error .userMismatch, st1)
    else
      let expectedOrigin := origin.getD cfg.origin
      if platform ≠ "web" ∧ origin.isSome ∧
          isValidOrigin cfg (origin.getD "") platform = false then
        (.error (.invalidOrigin platform (origin.getD "")), st1)
      else if verification.verified = false then
        (.error .registrationVerificationFailed, st1)
      else
        let sessPlatform :=
          if challengeData.platform = "" then platform else challengeData.platform
        let passkeyData : Passkey :=
          { userId := challengeData.userId.getD ""
            username := challengeData.username.getD ""
            displayName := challengeData.displayName.getD ""
            credentialID := verification.credentialID
            credentialPublicKey := verification.credentialPublicKey
            counter := verification.counter
            credentialDeviceType := verification.credentialDeviceType
            credentialBackedUp := verification.credentialBackedUp
            transports := some (credTransports.getD (getTransportsForPlatform none sessPlatform))
            aaguid := verification.aaguid
            platform := sessPlatform
            registeredFrom := expectedOrigin
            id := newPasskeyId, createdAt := now, lastUsed := now }
        let st2 := savePasskey st1 now newPasskeyId passkeyData
        let st3 := saveUser st2 now (challengeData.userId.getD "")
          challengeData.username challengeData.displayName
        let st4 := deleteChallenge st3 sessionId
        (.ok { passkeyId := newPasskeyId, passkey := passkeyData }, st4)

/-- The credential lookup of verifyAuthentication: the first stored passkey
whose raw credentialID bytes equal the responding credential id bytes
(Buffer.from(credential.id, base64url)). -/
def findPasskeyByCredentialId (st : Store) (idBytes : List Nat) : Option Passkey :=
  (st.passkeys.map Prod.snd).find? (fun p => p.credentialID == idBytes)

/-- webauthnService.verifyAuthentication(sessionId, credential, origin), with
the external primitive outcome as the verification parameter and credIdBytes
modelling the decoded credential.id. -/
def verifyAuthentication (cfg : Config) (st : Store) (now : Nat) (sessionId : String)
    (credIdBytes : List Nat) (origin : Option String)
    (verification : AuthVerification) :
    Except WebAuthnError AuthResult × Store :=
  match getChallenge st now sessionId with
  | (none, st1) => (.error .sessionExpiredOrInvalid, st1)
  | (some challengeData, st1) =>
    if challengeData.type ≠ "authentication" then (.error .sessionExpiredOrInvalid, st1)
    else
      match findPasskeyByCredentialId st1 credIdBytes with
      | none => (.error .passkeyNotFound, st1)
      | some passkey =>
        let platform :=
          if challengeData.platform = "" then "web" else challengeData.platform
        if platform ≠ "web" ∧ origin.isSome ∧
            isValidOrigin cfg (origin.getD "") platform = false then
          (.error (.invalidOrigin platform (origin.getD "")), st1)
        else if verification.verified = false then
          (.error .authenticationVerificationFailed, st1)
        else
          let st2 := savePasskey st1 now passkey.id
            { passkey with counter := verification.newCounter }
          let st3 := updatePasskeyLastUsed st2 now passkey.id
          let st4 := deleteChallenge st3 sessionId
          (.ok { userId := passkey.userId, username := passkey.username,
                 passkeyId := passkey.id }, st4)

/-- One entry of the allowCredentials list of generateAuthenticationOptions. -/
structure AllowCredential where
  id : List Nat
  transports : List String
deriving Repr, DecidableEq

/-- The authentication options returned to the client (the challenge is
produced by the external primitive and passed in here). -/
structure AuthOptions where
  timeout : Nat
  allowCredentials : Option (List AllowCredential)
  userVerification : String
  rpID : String
  challenge : String
deriving Repr, DecidableEq

/-- Result of generateAuthenticationOptions: options plus the fresh session id. -/
structure AuthBeginResult where
  options : AuthOptions
  sessionId : String
deriving Repr, DecidableEq

/-- webauthnService.generateAuthenticationOptions(userId, platform): with a
userId the allow-list is built from that user's passkeys, without one it is
built from every stored passkey; the list is passed to the primitive only when
nonempty (otherwise the allowCredentials field is left undefined). A fresh
authentication session is stored. The challenge and sessionId produced by the
primitive and uuid generator are parameters. -/
def generateAuthenticationOptions (cfg : Config) (st : Store) (now : Nat)
    (userId : Option String) (platform : String) (challenge sessionId : String) :
    AuthBeginResult × Store :=
  let allowCredentials : List AllowCredential :=
    (getPasskeys st userId).map fun passkey =>
      { id := passkey.credentialID
        transports := getTransportsForPlatform passkey.transports platform }
  let options : AuthOptions :=
    { timeout := cfg.timeout
      allowCredentials := if allowCredentials.length > 0 then some allowCredentials else none
      userVerification := "preferred"
      rpID := cfg.rpID
      challenge := challenge }
  let st1 := saveChallenge st now sessionId challenge userId none none platform "authentication"
  ({ options := options, sessionId := sessionId }, st1)

/-- Backend sign-in credentials configured for one user in auth-config.json. -/
structure BackendCredentials where
  username : String
  password : String
deriving Repr, DecidableEq

/-- Outcome of the axios.post call made by backendService.authenticateUser:
a 2xx response, an error response from the backend, a network error with no
response, or any other thrown error. -/
inductive BackendNet where
  | ok (status : Nat) (data : String)
  | httpError (status : Nat) (message : Option String) (data : String)
  | networkError
  | otherError (message : String)
deriving Repr, DecidableEq

/-- The value backendService.authenticateUser resolves with: either the
success record or the failure record it builds in its catch block. -/
inductive BackendAuthOutcome where
  | success (data : String) (status : Nat)
  | failure (message : String) (status : Nat) (data : Option String)
deriving Repr, DecidableEq

/-- backendService.authenticateUser(userId): throws (Except.error) when the
config cannot be loaded or when no credentials are configured for the user;
otherwise classifies the axios outcome without throwing. -/
def authenticateUser (configMissing : Bool)
    (userCredentials : List (String × BackendCredentials)) (userId : String)
    (net : BackendNet) : Except String BackendAuthOutcome :=
  if configMissing then .error "Backend service configuration not found"
  else
    match alookup userCredentials userId with
    | none => .error ("No credentials configured for user: " ++ userId)
    | some _ =>
      match net with
      | .ok status data => .ok (.success data status)
      | .httpError status message data =>
          .ok (.failure (message.getD "Authentication failed") status (some data))
      | .networkError => .ok (.failure "Unable to connect to backend service" 503 none)
      | .otherError message =>
          .ok (.failure (if message = "" then "Unknown error occurred" else message) 500 none)

/-- backendService.getUserCredentials(userId): throws only when the config
cannot be loaded. -/
def getUserCredentials (configMissing : Bool)
    (userCredentials : List (String × BackendCredentials)) (userId : String) :
    Except String (Option BackendCredentials) :=
  if configMissing then .error "Backend service configuration not found"
  else .ok (alookup userCredentials userId)

/-- backendService.getAvailableUsers(): the configured user ids. -/
def getAvailableUsers (userCredentials : List (String × BackendCredentials)) :
    List String :=
  userCredentials.map Prod.fst

/-- The backendAuthentication side-channel object attached by the
POST /login/complete handler (absent subfields modelled as none; the nested
error object of the source is flattened into errorMessage/status/data). -/
structure BackendAuthField where
  skipped : Bool
  success : Option Bool
  message : String
  data : Option String
  status : Option Nat
  errorMessage : Option String
  availableUsers : Option (List String)
deriving Repr, DecidableEq

def emptyBackendAuthField : BackendAuthField :=
  { skipped := false, success := none, message := "", data := none,
    status := none, errorMessage := none, availableUsers := none }

/-- The JSON body sent by POST /login/complete when verifyAuthentication
succeeded. -/
structure LoginCompleteResponse where
  success : Bool
  message : String
  userId : String
  username : String
  passkeyId : String
  backendAuthentication : BackendAuthField
  warning : Option String
deriving Repr, DecidableEq

/-- The part of the POST /login/complete handler in routes/passkey.js that
runs after verifyAuthentication reported verified: it builds the success base
response and attaches the backend delegation outcome, never touching the
top-level success flag. -/
def loginCompleteRespond (configMissing : Bool)
    (userCredentials : List (String × BackendCredentials)) (auth : AuthResult)
    (skipBackendAuth : Bool) (net : BackendNet) : LoginCompleteResponse :=
  let base : LoginCompleteResponse :=
    { success := true, message := "Authentication successful",
      userId := auth.userId, username := auth.username, passkeyId := auth.passkeyId,
      backendAuthentication := emptyBackendAuthField, warning := none }
  if skipBackendAuth then
    let ba : BackendAuthField :=
      { emptyBackendAuthField with
          skipped := true,
          message := "Backend authentication skipped by request" }
    { base with backendAuthentication := ba }
  else
    match authenticateUser configMissing userCredentials auth.userId net with
    | .ok (.success data status) =>
      let ba : BackendAuthField :=
        { emptyBackendAuthField with
            success := some true,
            message := "Backend signin successful",
            data := some data, status := some status }
      { base with backendAuthentication := ba }
    | .ok (.failure emessage estatus edata) =>
      let ba : BackendAuthField :=
        { emptyBackendAuthField with
            success := some false,
            message := "Backend signin failed",
            errorMessage := some emessage, status := some estatus, data := edata }
      { base with
          backendAuthentication := ba,
          warning := some "Passkey authentication successful but backend signin failed" }
    | .error backendErrorMessage =>
      match getUserCredentials configMissing userCredentials auth.userId with
      | .error credentialErrorMessage =>
        let ba : BackendAuthField :=
          { emptyBackendAuthField with
              success := some false,
              message := "Backend service unavailable",
              errorMessage := some credentialErrorMessage }
        { base with
            backendAuthentication := ba,
            warning := some "Passkey authentication successful but backend service unavailable" }
      | .ok none =>
        let ba : BackendAuthField :=
          { emptyBackendAuthField with
              success := some false,
              message := "No backend credentials configured for user: " ++ auth.userId,
              availableUsers := some (getAvailableUsers userCredentials) }
        { base with
            backendAuthentication := ba,
            warning := some "Passkey authentication successful but no backend credentials configured" }
      | .ok (some _) =>
        let ba : BackendAuthField :=
          { emptyBackendAuthField with
              success := some false,
              message := "Backend service error",
              errorMessage := some backendErrorMessage }
        { base with
            backendAuthentication := ba,
            warning := some "Passkey authentication successful but backend service unavailable" }

/-- The two concurrent callers of a completion endpoint racing on one session. -/
inductive Caller where
  | A
  | B
deriving Repr, DecidableEq

/-- One storage call of the fetch-then-delete consumption pattern used by
verifyRegistration and verifyAuthentication: the caller first reads the
session with getChallenge and only later removes it with deleteChallenge;
the two calls are separate awaited storage operations, so steps of the other
caller can be interleaved between them. -/
inductive ConsumeStep where
  | get (c : Caller)
  | del (c : Caller)
deriving Repr, DecidableEq

/-- State of the race: the shared store plus what each caller observed from
its getChallenge call (none = has not read yet). -/
structure RaceState where
  store : Store
  observedA : Option (Option Session)
  observedB : Option (Option Session)
deriving Repr, DecidableEq

/-- Execute one interleaved storage call of the consumption pattern. -/
def raceStep (now : Nat) (sessionId : String) (s : RaceState) :
    ConsumeStep → RaceState
  | .get c =>
    let r := getChallenge s.store now sessionId
    match c with
    | .A => { s with store := r.2, observedA := some r.1 }
    | .B => { s with store := r.2, observedB := some r.1 }
  | .del _ => { s with store := deleteChallenge s.store sessionId }

/-- Run a schedule of interleaved storage calls. -/
def runRace (now : Nat) (sessionId : String) (steps : List ConsumeStep)
    (s : RaceState) : RaceState :=
  steps.foldl (raceStep now sessionId) s

/-- Fixture: a live registration session (created at 0, expiring at 300000). -/
def regSessionW : Session :=
  { challenge := "ch1", userId := some "u1", username := some "alice",
    displayName := some "Alice", platform := "web", type := "registration",
    createdAt := 0, expiresAt := 300000 }

/-- Fixture: a live authentication session. -/
def authSessionW : Session :=
  { challenge := "ch2", userId := some "u1", username := none,
    displayName := none, platform := "web", type := "authentication",
    createdAt := 0, expiresAt := 300000 }

/-- Fixture: a stored passkey with counter 5. -/
def passkeyW : Passkey :=
  { userId := "u1", username := "alice", displayName := "Alice",
    credentialID := [1, 2, 3], credentialPublicKey := [9, 9],
    counter := 5, credentialDeviceType := "singleDevice",
    credentialBackedUp := false, transports := some ["internal"],
    aaguid := "ag1", platform := "web",
    registeredFrom := "http://localhost:3000",
    id := "pk1", createdAt := 100, lastUsed := 100 }

/-- Fixture: a verified registration primitive outcome. -/
def regVerW : RegVerification :=
  { verified := true, credentialID := [7, 7], credentialPublicKey := [1],
    counter := 0, credentialDeviceType := "singleDevice",
    credentialBackedUp := false, aaguid := "ag2" }

/-- Fixture: a verified authentication primitive outcome reporting counter 6. -/
def authVerW : AuthVerification := { verified := true, newCounter := 6 }

/-- Fixture: store holding only the live registration session sid1. -/
def stRegW : Store := { passkeys := [], users := [], sessions := [("sid1", regSessionW)] }

/-- Fixture: store holding passkey pk1 and the live authentication session sid2. -/
def stAuthW : Store :=
  { passkeys := [("pk1", passkeyW)], users := [], sessions := [("sid2", authSessionW)] }

/-- Fixture: store holding an authentication session that expired at time 10. -/
def stExpW : Store :=
  { passkeys := [("pk1", passkeyW)], users := [],
    sessions := [("sid3", { authSessionW with expiresAt := 10 })] }

/-- Fixture: backend credential configuration for user u2 only. -/
def credsW : List (String × BackendCredentials) :=
  [("u2", { username := "user2@example.com", password := "pw" })]

/-- Fixture: an authenticated identity for user u1 (not configured in credsW). -/
def authResW : AuthResult := { userId := "u1", username := "alice", passkeyId := "pk1" }

theorem alookup_ains_self {α : Type} (l : List (String × α)) (key : String) (v : α) :
    alookup (ains l key v) key = some v := by
  induction l with
  | nil => simp [ains, alookup]
  | cons head rest ih =>
    obtain ⟨k, w⟩ := head
    by_cases h : k = key
    · simp [ains, h, alookup]
    · simp [ains, h, alookup, ih]

theorem alookup_ains_ne {α : Type} (l : List (String × α)) (key key2 : String) (v : α)
    (h : key2 ≠ key) : alookup (ains l key v) key2 = alookup l key2 := by
  induction l with
  | nil => simp [ains, alookup, Ne.symm h]
  | cons head rest ih =>
    obtain ⟨k, w⟩ := head
    by_cases hk : k = key
    · subst hk
      simp [ains, alookup, Ne.symm h]
    · simp only [ains, if_neg hk]
      by_cases hk2 : k = key2
      · simp [alookup, hk2]
      · simp [alookup, hk2, ih]

theorem alookup_aerase_self {α : Type} (l : List (String × α)) (key : String) :
    alookup (aerase l key) key = none := by
  induction l with
  | nil => simp [aerase, alookup]
  | cons head rest ih =>
    obtain ⟨k, w⟩ := head
    by_cases h : k = key
    · simpa [aerase, List.filter_cons, h] using ih
    · simpa [aerase, List.filter_cons, h, alookup] using ih

theorem alookup_aerase_ne {α : Type} (l : List (String × α)) (key key2 : String)
    (h : key2 ≠ key) : alookup (aerase l key) key2 = alookup l key2 := by
  induction l with
  | nil => simp [aerase, alookup]
  | cons head rest ih =>
    obtain ⟨k, w⟩ := head
    by_cases hk : k = key
    · subst hk
      simpa [aerase, List.filter_cons, alookup, Ne.symm h] using ih
    · by_cases hk2 : k = key2
      · simp [aerase, List.filter_cons, hk, alookup, hk2, h]
      · simpa [aerase, List.filter_cons, hk, alookup, hk2] using ih

theorem alookup_filter_of_none {α : Type} (l : List (String × α))
    (p : String × α → Bool) (key : String) (h : alookup l key = none) :
    alookup (l.filter p) key = none := by
  induction l with
  | nil => simp [alookup]
  | cons head rest ih =>
    obtain ⟨k, w⟩ := head
    by_cases hk : k = key
    · simp [alookup, hk] at h
    · simp only [alookup, if_neg hk] at h
      by_cases hp : p (k, w)
      · simp [List.filter_cons, hp, alookup, hk, ih h]
      · simp [List.filter_cons, hp, ih h]

theorem alookup_mem_keys {α : Type} (l : List (String × α)) (key : String) (v : α)
    (h : alookup l key = some v) : key ∈ l.map Prod.fst := by
  induction l with
  | nil => simp [alookup] at h
  | cons head rest ih =>
    obtain ⟨k, w⟩ := head
    by_cases hk : k = key
    · simp [hk]
    · simp only [alookup, if_neg hk] at h
      simp [ih h]

theorem alookup_filter_of_nodup {α : Type} (l : List (String × α))
    (p : String × α → Bool) (key : String) (v : α)
    (hnd : (l.map Prod.fst).Nodup) (h : alookup l key = some v)
    (hp : p (key, v) = false) : alookup (l.filter p) key = none := by
  induction l with
  | nil => simp [alookup] at h
  | cons head rest ih =>
    obtain ⟨k, w⟩ := head
    simp only [List.map_cons, List.nodup_cons] at hnd
    by_cases hk : k = key
    · have hwv : w = v := by
        simp [alookup, hk] at h
        exact h
      have hpk : p (k, w) = false := by
        rw [hk, hwv]
        exact hp
      rw [List.filter_cons]
      simp only [hpk, Bool.false_eq_true, if_false]
      apply alookup_filter_of_none
      rcases hl : alookup rest key with _ | u
      · rfl
      · exact absurd (by rw [hk]; exact alookup_mem_keys rest key u hl) hnd.1
    · simp only [alookup, if_neg hk] at h
      by_cases hpk : p (k, w)
      · simp only [List.filter_cons, hpk, if_pos]
        simp only [alookup, if_neg hk]
        exact ih hnd.2 h
      · simp only [List.filter_cons, hpk]
        simp only [Bool.false_eq_true, if_neg]
        exact ih hnd.2 h

theorem getChallenge_absent (st : Store) (now : Nat) (sessionId : String)
    (h : alookup st.sessions sessionId = none) :
    getChallenge st now sessionId = (none, st) := by
  unfold getChallenge
  rw [h]

theorem getChallenge_found_live (st : Store) (now : Nat) (sessionId : String) (s : Session)
    (h : alookup st.sessions sessionId = some s) (hl : ¬ s.expiresAt < now) :
    getChallenge st now sessionId = (some s, st) := by
  unfold getChallenge
  rw [h]
  simp [hl]

theorem getChallenge_expired (st : Store) (now : Nat) (sessionId : String) (s : Session)
    (h : alookup st.sessions sessionId = some s) (he : s.expiresAt < now) :
    getChallenge st now sessionId = (none, deleteChallenge st sessionId) := by
  unfold getChallenge
  rw [h]
  simp [he]

theorem getChallenge_snd_passkeys (st : Store) (now : Nat) (sessionId : String) :
    ((getChallenge st now sessionId).2).passkeys = st.passkeys := by
  unfold getChallenge
  cases h : alookup st.sessions sessionId with
  | none => rfl
  | some s =>
    dsimp only
    by_cases he : s.expiresAt < now
    · simp [he, deleteChallenge]
    · simp [he]

theorem verifyRegistration_absent (cfg : Config) (st : Store) (now : Nat)
    (sessionId : String) (ct : Option (List String)) (uid : String)
    (origin : Option String) (platform : String) (ver : RegVerification) (pid : String)
    (h : alookup st.sessions sessionId = none) :
    (verifyRegistration cfg st now sessionId ct uid origin platform ver pid).1
        = .error .sessionExpiredOrInvalid ∧
    (verifyRegistration cfg st now sessionId ct uid origin platform ver pid).2 = st := by
  unfold verifyRegistration
  rw [getChallenge_absent st now sessionId h]
  exact ⟨rfl, rfl⟩

theorem verifyAuthentication_absent (cfg : Config) (st : Store) (now : Nat)
    (sessionId : String) (idb : List Nat) (origin : Option String)
    (ver : AuthVerification)
    (h : alookup st.sessions sessionId = none) :
    (verifyAuthentication cfg st now sessionId idb origin ver).1
        = .error .sessionExpiredOrInvalid ∧
    (verifyAuthentication cfg st now sessionId idb origin ver).2 = st := by
  unfold verifyAuthentication
  rw [getChallenge_absent st now sessionId h]
  exact ⟨rfl, rfl⟩

theorem verifyRegistration_error_snd (cfg : Config) (st : Store) (now : Nat)
    (sessionId : String) (ct : Option (List String)) (uid : String)
    (origin : Option String) (platform : String) (ver : RegVerification) (pid : String)
    (h : exceptIsOk (verifyRegistration cfg st now sessionId ct uid origin platform ver pid).1
        = false) :
    (verifyRegistration cfg st now sessionId ct uid origin platform ver pid).2
        = (getChallenge st now sessionId).2 := by
  unfold verifyRegistration at h ⊢
  set g := getChallenge st now sessionId with hgdef
  clear_value g
  obtain ⟨o, st1⟩ := g
  cases o with
  | none => rfl
  | some cd =>
    dsimp only at h ⊢
    by_cases c1 : cd.type ≠ "registration"
    · simp [c1]
    · by_cases c2 : cd.userId ≠ some uid
      · simp [c1, c2]
      · by_cases c3 : platform ≠ "web" ∧ origin.isSome ∧
            isValidOrigin cfg (origin.getD "") platform = false
        · simp [c1, c2, c3]
        · by_cases c4 : ver.verified = false
          · simp [c1, c2, c3, c4]
          · simp [c1, c2, c3, c4, exceptIsOk] at h

theorem verifyRegistration_ok_sessions (cfg : Config) (st : Store) (now : Nat)
    (sessionId : String) (ct : Option (List String)) (uid : String)
    (origin : Option String) (platform : String) (ver : RegVerification) (pid : String)
    (h : exceptIsOk (verifyRegistration cfg st now sessionId ct uid origin platform ver pid).1
        = true) :
    alookup (verifyRegistration cfg st now sessionId ct uid origin platform ver pid).2.sessions
        sessionId = none := by
  unfold verifyRegistration at h ⊢
  set g := getChallenge st now sessionId with hgdef
  clear_value g
  obtain ⟨o, st1⟩ := g
  cases o with
  | none => simp [exceptIsOk] at h
  | some cd =>
    dsimp only at h ⊢
    by_cases c1 : cd.type ≠ "registration"
    · simp [c1, exceptIsOk] at h
    · by_cases c2 : cd.userId ≠ some uid
      · simp [c1, c2, exceptIsOk] at h
      · by_cases c3 : platform ≠ "web" ∧ origin.isSome ∧
            isValidOrigin cfg (origin.getD "") platform = false
        · simp [c1, c2, c3, exceptIsOk] at h
        · by_cases c4 : ver.verified = false
          · simp [c1, c2, c3, c4, exceptIsOk] at h
          · simp [c1, c2, c3, c4, deleteChallenge, saveUser, savePasskey,
              alookup_aerase_self]

theorem savePasskey_sessions (st : Store) (now : Nat) (pid : String) (d : Passkey) :
    (savePasskey st now pid d).sessions = st.sessions := rfl

theorem saveUser_sessions (st : Store) (now : Nat) (uid : String)
    (un dn : Option String) : (saveUser st now uid un dn).sessions = st.sessions := rfl

theorem updatePasskeyLastUsed_sessions (st : Store) (now : Nat) (pid : String) :
    (updatePasskeyLastUsed st now pid).sessions = st.sessions := by
  unfold updatePasskeyLastUsed
  cases alookup st.passkeys pid <;> rfl

theorem deleteChallenge_sessions (st : Store) (sid : String) :
    (deleteChallenge st sid).sessions = aerase st.sessions sid := rfl

theorem deleteChallenge_passkeys (st : Store) (sid : String) :
    (deleteChallenge st sid).passkeys = st.passkeys := rfl

theorem verifyAuthentication_characterization (cfg : Config) (st : Store) (now : Nat)
    (sessionId : String) (idb : List Nat) (origin : Option String)
    (ver : AuthVerification) :
    (exceptIsOk (verifyAuthentication cfg st now sessionId idb origin ver).1 = false ∧
        (verifyAuthentication cfg st now sessionId idb origin ver).2
          = (getChallenge st now sessionId).2) ∨
    (exceptIsOk (verifyAuthentication cfg st now sessionId idb origin ver).1 = true ∧
        alookup (verifyAuthentication cfg st now sessionId idb origin ver).2.sessions
          sessionId = none) := by
  unfold verifyAuthentication
  set g := getChallenge st now sessionId with hg
  clear_value g
  obtain ⟨o, st1⟩ := g
  cases o with
  | none => exact Or.inl ⟨rfl, rfl⟩
  | some cd =>
    dsimp only
    repeat' split
    all_goals
      first
        | exact Or.inl ⟨rfl, rfl⟩
        | (refine Or.inr ⟨rfl, ?_⟩
           rw [deleteChallenge_sessions, updatePasskeyLastUsed_sessions,
             savePasskey_sessions]
           exact alookup_aerase_self st1.sessions sessionId)

theorem verifyAuthentication_error_snd (cfg : Config) (st : Store) (now : Nat)
    (sessionId : String) (idb : List Nat) (origin : Option String)
    (ver : AuthVerification)
    (h : exceptIsOk (verifyAuthentication cfg st now sessionId idb origin ver).1 = false) :
    (verifyAuthentication cfg st now sessionId idb origin ver).2
        = (getChallenge st now sessionId).2 := by
  rcases verifyAuthentication_characterization cfg st now sessionId idb origin ver with
    ⟨_, h2⟩ | ⟨h1, _⟩
  · exact h2
  · rw [h] at h1
    exact absurd h1 (by simp)

theorem verifyAuthentication_ok_sessions (cfg : Config) (st : Store) (now : Nat)
    (sessionId : String) (idb : List Nat) (origin : Option String)
    (ver : AuthVerification)
    (h : exceptIsOk (verifyAuthentication cfg st now sessionId idb origin ver).1 = true) :
    alookup (verifyAuthentication cfg st now sessionId idb origin ver).2.sessions
        sessionId = none := by
  rcases verifyAuthentication_characterization cfg st now sessionId idb origin ver with
    ⟨h1, _⟩ | ⟨_, h2⟩
  · rw [h] at h1
    exact absurd h1 (by simp)
  · exact h2

theorem getChallenge_some_state (st : Store) (now : Nat) (sid : String) (s : Session)
    (st2 : Store) (h : getChallenge st now sid = (some s, st2)) : st2 = st := by
  unfold getChallenge at h
  cases hl : alookup st.sessions sid with
  | none =>
    rw [hl] at h
    simp at h
  | some s1 =>
    rw [hl] at h
    dsimp only at h
    by_cases he : s1.expiresAt < now
    · rw [if_pos he] at h
      simp at h
    · rw [if_neg he] at h
      simp at h
      exact h.2.symm

theorem updateAfterSave_lookup (st : Store) (now : Nat) (pid : String) (d : Passkey) :
    alookup (updatePasskeyLastUsed (savePasskey st now pid d) now pid).passkeys pid
      = some { d with id := pid, createdAt := now, lastUsed := now } := by
  unfold updatePasskeyLastUsed savePasskey
  dsimp only
  rw [alookup_ains_self]
  dsimp only
  rw [alookup_ains_self]

theorem verifyAuthentication_ok_detail (cfg : Config) (st : Store) (now : Nat)
    (sid : String) (idb : List Nat) (origin : Option String) (ver : AuthVerification) :
    exceptIsOk (verifyAuthentication cfg st now sid idb origin ver).1 = false ∨
    (∃ pk, findPasskeyByCredentialId st idb = some pk ∧
      (verifyAuthentication cfg st now sid idb origin ver).1
        = .ok { userId := pk.userId, username := pk.username, passkeyId := pk.id } ∧
      alookup (verifyAuthentication cfg st now sid idb origin ver).2.passkeys pk.id
        = some { pk with counter := ver.newCounter, createdAt := now, lastUsed := now }) := by
  unfold verifyAuthentication
  cases hg : getChallenge st now sid with
  | mk o st1 =>
    cases o with
    | none => exact Or.inl rfl
    | some cd =>
      have hst : st1 = st := getChallenge_some_state st now sid cd st1 hg
      rw [hst]
      dsimp only
      by_cases c1 : cd.type ≠ "authentication"
      · rw [if_pos c1]
        exact Or.inl rfl
      · rw [if_neg c1]
        cases hf : findPasskeyByCredentialId st idb with
        | none => exact Or.inl rfl
        | some pk =>
          dsimp only
          repeat' split
          all_goals
            first
              | exact Or.inl rfl
              | (right
                 refine ⟨pk, rfl, rfl, ?_⟩
                 rw [deleteChallenge_passkeys]
                 exact updateAfterSave_lookup st now pk.id _)

/-- C7: isValidOrigin(origin, platform) returns true exactly when the origin
is an exact member of the configured allow-list, or (Android) it starts with
android:apk-key-hash:, or (iOS) it starts with ios:bundle-id:, or (Web) it
starts with http:// or https://; every other shape is rejected. The three
spec examples hold under the default configuration. -/
theorem isValidOrigin_spec :
    (∀ (cfg : Config) (origin platform : String),
      isValidOrigin cfg origin platform = true ↔
        (origin ∈ cfg.allowedOrigins ∨
         (jsToLower platform = "android" ∧
           strStartsWith origin "android:apk-key-hash:" = true) ∨
         (jsToLower platform = "ios" ∧ strStartsWith origin "ios:bundle-id:" = true) ∨
         (jsToLower platform = "web" ∧
           (strStartsWith origin "http://" = true ∨
            strStartsWith origin "https://" = true)))) ∧
    isValidOrigin defaultConfig "ios:bundle-id:com.x.y" "ios" = true ∧
    isValidOrigin defaultConfig "http://evil.com" "ios" = false ∧
    isValidOrigin defaultConfig "https://good.com" "web" = true := by
  refine ⟨?_, by decide, by decide, by decide⟩
  intro cfg origin platform
  unfold isValidOrigin
  by_cases hc : cfg.allowedOrigins.contains origin = true
  · have hmem : origin ∈ cfg.allowedOrigins := by simpa using hc
    rw [if_pos hc]
    simp [hmem]
  · have hmem : origin ∉ cfg.allowedOrigins := by simpa using hc
    rw [if_neg hc]
    split
    · next heq => simp [heq, hmem]
    · next heq => simp [heq, hmem]
    · next heq => simp [heq, hmem]
    · next h1 h2 h3 =>
        simp [hmem]
        exact ⟨fun h => absurd h h1, fun h => absurd h h2, fun h => absurd h h3⟩

/-- C6 (code-bug evidence): savePasskey does not preserve the createdAt of an
existing record. Re-saving passkey pk1 (stored createdAt 100) at time 200,
which is exactly what the counter update of verifyAuthentication does, leaves
the stored record with createdAt 200; the full verifyAuthentication success
path on stAuthW likewise rewrites createdAt from 100 to 200. -/
theorem savePasskey_resets_createdAt :
    ((alookup stAuthW.passkeys "pk1").map Passkey.createdAt = some 100) ∧
    ((alookup (savePasskey stAuthW 200 "pk1" passkeyW).passkeys "pk1").map
        Passkey.createdAt = some 200) ∧
    ((alookup (verifyAuthentication defaultConfig stAuthW 200 "sid2" [1, 2, 3] none
        authVerW).2.passkeys "pk1").map Passkey.createdAt = some 200) := by
  refine ⟨rfl, rfl, ?_⟩
  rfl

/-- C4: whenever verifyRegistration or verifyAuthentication fails (any check
including the verification gate), the stored passkey table is left exactly as
it was: no credential record is created and no stored credential field is
modified. -/
theorem no_partial_credential_state (cfg : Config) (st : Store) (now : Nat)
    (sid : String) (ct : Option (List String)) (uid : String) (orig : Option String)
    (plat : String) (ver : RegVerification) (pid : String) (idb : List Nat)
    (aorig : Option String) (aver : AuthVerification) :
    (exceptIsOk (verifyRegistration cfg st now sid ct uid orig plat ver pid).1 = false →
      (verifyRegistration cfg st now sid ct uid orig plat ver pid).2.passkeys
        = st.passkeys) ∧
    (exceptIsOk (verifyAuthentication cfg st now sid idb aorig aver).1 = false →
      (verifyAuthentication cfg st now sid idb aorig aver).2.passkeys = st.passkeys) := by
  constructor
  · intro h
    rw [verifyRegistration_error_snd cfg st now sid ct uid orig plat ver pid h]
    exact getChallenge_snd_passkeys st now sid
  · intro h
    rw [verifyAuthentication_error_snd cfg st now sid idb aorig aver h]
    exact getChallenge_snd_passkeys st now sid

/-- Witness for C4: at the concrete absent-session input both completion
operations fail and the passkey table is untouched. -/
theorem no_partial_credential_state_witness :
    (exceptIsOk (verifyRegistration defaultConfig emptyStore 0 "s" none "u" none "web"
        regVerW "p").1 = false) ∧
    ((verifyRegistration defaultConfig emptyStore 0 "s" none "u" none "web"
        regVerW "p").2.passkeys = emptyStore.passkeys) ∧
    (exceptIsOk (verifyAuthentication defaultConfig emptyStore 0 "s" [] none
        authVerW).1 = false) ∧
    ((verifyAuthentication defaultConfig emptyStore 0 "s" [] none
        authVerW).2.passkeys = emptyStore.passkeys) :=
  ⟨rfl,
   (no_partial_credential_state defaultConfig emptyStore 0 "s" none "u" none "web"
      regVerW "p" [] none authVerW).1 rfl,
   rfl,
   (no_partial_credential_state defaultConfig emptyStore 0 "s" none "u" none "web"
      regVerW "p" [] none authVerW).2 rfl⟩

/-- C9: on every successful verifyAuthentication the stored credential whose
raw id bytes matched is updated so that its counter is exactly the
primitive-reported newCounter and its lastUsed is refreshed to now, and the
operation returns that credential's userId, username and passkey id. -/
theorem authComplete_updates_counter (cfg : Config) (st : Store) (now : Nat)
    (sid : String) (idb : List Nat) (orig : Option String) (ver : AuthVerification)
    (r : AuthResult)
    (h : (verifyAuthentication cfg st now sid idb orig ver).1 = Except.ok r) :
    ∃ pk, findPasskeyByCredentialId st idb = some pk ∧
      r = { userId := pk.userId, username := pk.username, passkeyId := pk.id } ∧
      (alookup (verifyAuthentication cfg st now sid idb orig ver).2.passkeys pk.id).map
          Passkey.counter = some ver.newCounter ∧
      (alookup (verifyAuthentication cfg st now sid idb orig ver).2.passkeys pk.id).map
          Passkey.lastUsed = some now := by
  rcases verifyAuthentication_ok_detail cfg st now sid idb orig ver with h1 | ⟨pk, hf, hok, hl⟩
  · rw [h] at h1
    exact absurd h1 (by simp [exceptIsOk])
  · refine ⟨pk, hf, ?_, ?_, ?_⟩
    · rw [h] at hok
      exact (Except.ok.injEq _ _ ▸ hok : r = _)
    · rw [hl]
      rfl
    · rw [hl]
      rfl

/-- Witness for C9: authenticating against stored passkey pk1 with counter 5
and a primitive-reported newCounter 6 succeeds, stores counter 6, refreshes
lastUsed, and returns the credential's identity. -/
theorem authComplete_updates_counter_witness :
    ((alookup stAuthW.passkeys "pk1").map Passkey.counter = some 5) ∧
    ((verifyAuthentication defaultConfig stAuthW 200 "sid2" [1, 2, 3] none authVerW).1
        = Except.ok { userId := "u1", username := "alice", passkeyId := "pk1" }) ∧
    (∃ pk, findPasskeyByCredentialId stAuthW [1, 2, 3] = some pk ∧
      ({ userId := "u1", username := "alice", passkeyId := "pk1" } : AuthResult)
          = { userId := pk.userId, username := pk.username, passkeyId := pk.id } ∧
      (alookup (verifyAuthentication defaultConfig stAuthW 200 "sid2" [1, 2, 3] none
          authVerW).2.passkeys pk.id).map Passkey.counter = some authVerW.newCounter ∧
      (alookup (verifyAuthentication defaultConfig stAuthW 200 "sid2" [1, 2, 3] none
          authVerW).2.passkeys pk.id).map Passkey.lastUsed = some 200) :=
  ⟨rfl, rfl,
   authComplete_updates_counter defaultConfig stAuthW 200 "sid2" [1, 2, 3] none authVerW
     { userId := "u1", username := "alice", passkeyId := "pk1" } rfl⟩

theorem lenGuard_getD {α : Type} (l : List α) :
    (if l.length > 0 then some l else none).getD [] = l := by
  cases l with
  | nil => rfl
  | cons a t => simp

/-- C1: a completion call fails with SessionExpiredOrInvalid when the session
is absent or of the wrong ceremony type: after a successful verifyRegistration
consumed a sessionId, a second verifyRegistration on the same sessionId fails
SessionExpiredOrInvalid; and a stored session of type registration passed to
verifyAuthentication fails SessionExpiredOrInvalid. -/
theorem session_single_use_and_type_checked (cfg cfg2 : Config) (st st2 : Store)
    (now now2 now3 : Nat) (sid sid2 : String) (ct ct2 : Option (List String))
    (uid uid2 : String) (orig orig2 : Option String) (plat plat2 : String)
    (ver ver2 : RegVerification) (pid pid2 : String) (idb : List Nat)
    (aorig : Option String) (aver : AuthVerification) (s : Session) :
    (exceptIsOk (verifyRegistration cfg st now sid ct uid orig plat ver pid).1 = true →
      (verifyRegistration cfg2
          (verifyRegistration cfg st now sid ct uid orig plat ver pid).2
          now2 sid ct2 uid2 orig2 plat2 ver2 pid2).1
        = .error .sessionExpiredOrInvalid) ∧
    (alookup st2.sessions sid2 = some s → s.type = "registration" →
      (verifyAuthentication cfg2 st2 now3 sid2 idb aorig aver).1
        = .error .sessionExpiredOrInvalid) := by
  constructor
  · intro h
    exact (verifyRegistration_absent cfg2 _ now2 sid ct2 uid2 orig2 plat2 ver2 pid2
      (verifyRegistration_ok_sessions cfg st now sid ct uid orig plat ver pid h)).1
  · intro hs hty
    by_cases he : s.expiresAt < now3
    · unfold verifyAuthentication
      rw [getChallenge_expired st2 now3 sid2 s hs he]
    · unfold verifyAuthentication
      rw [getChallenge_found_live st2 now3 sid2 s hs he]
      dsimp only
      rw [if_pos (show s.type ≠ "authentication" by rw [hty]; decide)]

/-- Witness for C1: the concrete registration on stRegW succeeds, replaying the
same sessionId fails SessionExpiredOrInvalid, and feeding the registration
session sid1 to verifyAuthentication fails SessionExpiredOrInvalid. -/
theorem session_single_use_and_type_checked_witness :
    (exceptIsOk (verifyRegistration defaultConfig stRegW 100 "sid1" none "u1" none "web"
        regVerW "pk9").1 = true) ∧
    ((verifyRegistration defaultConfig
        (verifyRegistration defaultConfig stRegW 100 "sid1" none "u1" none "web"
          regVerW "pk9").2
        100 "sid1" none "u1" none "web" regVerW "pk9").1
      = .error .sessionExpiredOrInvalid) ∧
    (alookup stRegW.sessions "sid1" = some regSessionW) ∧
    (regSessionW.type = "registration") ∧
    ((verifyAuthentication defaultConfig stRegW 100 "sid1" [1, 2, 3] none authVerW).1
      = .error .sessionExpiredOrInvalid) :=
  ⟨rfl,
   (session_single_use_and_type_checked defaultConfig defaultConfig stRegW stRegW
      100 100 100 "sid1" "sid1" none none "u1" "u1" none none "web" "web"
      regVerW regVerW "pk9" "pk9" [1, 2, 3] none authVerW regSessionW).1 rfl,
   rfl, rfl,
   (session_single_use_and_type_checked defaultConfig defaultConfig stRegW stRegW
      100 100 100 "sid1" "sid1" none none "u1" "u1" none none "web" "web"
      regVerW regVerW "pk9" "pk9" [1, 2, 3] none authVerW regSessionW).2 rfl rfl⟩

/-- C10: when a completion call fails after its session was found live (user
mismatch, invalid origin, credential not found, or not-verified), the store is
unchanged and the session stays retrievable for a retry; the session is
removed exactly when the call succeeds. -/
theorem session_kept_on_failure (cfg : Config) (st : Store) (now : Nat) (sid : String)
    (ct : Option (List String)) (uid : String) (orig : Option String) (plat : String)
    (ver : RegVerification) (pid : String) (idb : List Nat) (aorig : Option String)
    (aver : AuthVerification) (s : Session)
    (hs : alookup st.sessions sid = some s) (hlive : ¬ s.expiresAt < now) :
    ((exceptIsOk (verifyRegistration cfg st now sid ct uid orig plat ver pid).1 = false →
        (verifyRegistration cfg st now sid ct uid orig plat ver pid).2 = st ∧
        alookup (verifyRegistration cfg st now sid ct uid orig plat ver pid).2.sessions sid
          = some s) ∧
     (exceptIsOk (verifyRegistration cfg st now sid ct uid orig plat ver pid).1 = true →
        alookup (verifyRegistration cfg st now sid ct uid orig plat ver pid).2.sessions sid
          = none)) ∧
    ((exceptIsOk (verifyAuthentication cfg st now sid idb aorig aver).1 = false →
        (verifyAuthentication cfg st now sid idb aorig aver).2 = st ∧
        alookup (verifyAuthentication cfg st now sid idb aorig aver).2.sessions sid
          = some s) ∧
     (exceptIsOk (verifyAuthentication cfg st now sid idb aorig aver).1 = true →
        alookup (verifyAuthentication cfg st now sid idb aorig aver).2.sessions sid
          = none)) := by
  have hg : getChallenge st now sid = (some s, st) :=
    getChallenge_found_live st now sid s hs hlive
  refine ⟨⟨?_, ?_⟩, ⟨?_, ?_⟩⟩
  · intro h
    have h2 : (verifyRegistration cfg st now sid ct uid orig plat ver pid).2 = st := by
      rw [verifyRegistration_error_snd cfg st now sid ct uid orig plat ver pid h, hg]
    exact ⟨h2, by rw [h2]; exact hs⟩
  · exact verifyRegistration_ok_sessions cfg st now sid ct uid orig plat ver pid
  · intro h
    have h2 : (verifyAuthentication cfg st now sid idb aorig aver).2 = st := by
      rw [verifyAuthentication_error_snd cfg st now sid idb aorig aver h, hg]
    exact ⟨h2, by rw [h2]; exact hs⟩
  · exact verifyAuthentication_ok_sessions cfg st now sid idb aorig aver

/-- Witness for C10: a user-mismatch failure on the live registration session
sid1 leaves the store unchanged with the session still retrievable, while the
successful authentication on sid2 removes its session. -/
theorem session_kept_on_failure_witness :
    (alookup stRegW.sessions "sid1" = some regSessionW) ∧
    (exceptIsOk (verifyRegistration defaultConfig stRegW 100 "sid1" none "u2" none "web"
        regVerW "pk9").1 = false) ∧
    ((verifyRegistration defaultConfig stRegW 100 "sid1" none "u2" none "web" regVerW
        "pk9").2 = stRegW ∧
     alookup (verifyRegistration defaultConfig stRegW 100 "sid1" none "u2" none "web"
        regVerW "pk9").2.sessions "sid1" = some regSessionW) ∧
    (exceptIsOk (verifyAuthentication defaultConfig stAuthW 200 "sid2" [1, 2, 3] none
        authVerW).1 = true) ∧
    (alookup (verifyAuthentication defaultConfig stAuthW 200 "sid2" [1, 2, 3] none
        authVerW).2.sessions "sid2" = none) :=
  ⟨rfl, rfl,
   ((session_kept_on_failure defaultConfig stRegW 100 "sid1" none "u2" none "web"
       regVerW "pk9" [] none authVerW regSessionW rfl (by decide)).1).1 rfl,
   rfl,
   ((session_kept_on_failure defaultConfig stAuthW 200 "sid2" none "u1" none "web"
       regVerW "pk9" [1, 2, 3] none authVerW authSessionW rfl (by decide)).2).2 rfl⟩

/-- C8: a stored session whose expiry time has passed behaves exactly like an
absent one: getChallenge reports NotFound (as it does on the store with the
session removed, and after an explicit expired-session sweep), and both
completion operations fail SessionExpiredOrInvalid exactly as on the
missing-session store. -/
theorem expired_behaves_as_absent (cfg : Config) (st : Store) (now : Nat) (sid : String)
    (ct : Option (List String)) (uid : String) (orig : Option String) (plat : String)
    (ver : RegVerification) (pid : String) (idb : List Nat) (aorig : Option String)
    (aver : AuthVerification) (s : Session)
    (hnd : (st.sessions.map Prod.fst).Nodup)
    (hs : alookup st.sessions sid = some s) (hexp : s.expiresAt < now) :
    ((getChallenge st now sid).1 = none) ∧
    ((getChallenge (deleteChallenge st sid) now sid).1 = none) ∧
    (alookup (cleanupExpiredSessions st now).1.sessions sid = none) ∧
    ((verifyRegistration cfg st now sid ct uid orig plat ver pid).1
        = .error .sessionExpiredOrInvalid) ∧
    ((verifyRegistration cfg (deleteChallenge st sid) now sid ct uid orig plat ver pid).1
        = .error .sessionExpiredOrInvalid) ∧
    ((verifyAuthentication cfg st now sid idb aorig aver).1
        = .error .sessionExpiredOrInvalid) ∧
    ((verifyAuthentication cfg (deleteChallenge st sid) now sid idb aorig aver).1
        = .error .sessionExpiredOrInvalid) := by
  have habs : alookup (deleteChallenge st sid).sessions sid = none := by
    rw [deleteChallenge_sessions]
    exact alookup_aerase_self st.sessions sid
  have hgexp : getChallenge st now sid = (none, deleteChallenge st sid) :=
    getChallenge_expired st now sid s hs hexp
  refine ⟨?_, ?_, ?_, ?_, ?_, ?_, ?_⟩
  · rw [hgexp]
  · rw [getChallenge_absent (deleteChallenge st sid) now sid habs]
  · exact alookup_filter_of_nodup st.sessions _ sid s hnd hs (by simp [hexp])
  · unfold verifyRegistration
    rw [hgexp]
  · exact (verifyRegistration_absent cfg (deleteChallenge st sid) now sid ct uid orig
      plat ver pid habs).1
  · unfold verifyAuthentication
    rw [hgexp]
  · exact (verifyAuthentication_absent cfg (deleteChallenge st sid) now sid idb aorig
      aver habs).1

/-- Witness for C8: the session sid3 of stExpW expired at time 10; at time
400000 every consumer treats it exactly like a missing session. -/
theorem expired_behaves_as_absent_witness :
    ((stExpW.sessions.map Prod.fst).Nodup) ∧
    (alookup stExpW.sessions "sid3" = some { authSessionW with expiresAt := 10 }) ∧
    (({ authSessionW with expiresAt := 10 } : Session).expiresAt < 400000) ∧
    ((getChallenge stExpW 400000 "sid3").1 = none) ∧
    (alookup (cleanupExpiredSessions stExpW 400000).1.sessions "sid3" = none) ∧
    ((verifyRegistration defaultConfig stExpW 400000 "sid3" none "u1" none "web" regVerW
        "pk9").1 = .error .sessionExpiredOrInvalid) ∧
    ((verifyAuthentication defaultConfig stExpW 400000 "sid3" [1, 2, 3] none authVerW).1
        = .error .sessionExpiredOrInvalid) := by
  have h := expired_behaves_as_absent defaultConfig stExpW 400000 "sid3" none "u1" none
    "web" regVerW "pk9" [1, 2, 3] none authVerW { authSessionW with expiresAt := 10 }
    (by decide) rfl (by decide)
  exact ⟨by decide, rfl, by decide, h.1, h.2.2.1, h.2.2.2.1, h.2.2.2.2.2.1⟩

/-- C5 counterexample: with one stored passkey and userId omitted,
generateAuthenticationOptions does not leave the allow-list empty; it lists
that stored credential. -/
theorem authBegin_usernameless_not_empty :
    ((generateAuthenticationOptions defaultConfig stAuthW 0 none "web" "c"
        "sidX").1.options.allowCredentials
      = some [{ id := [1, 2, 3], transports := ["internal"] }]) ∧
    ((generateAuthenticationOptions defaultConfig stAuthW 0 none "web" "c"
        "sidX").1.options.allowCredentials ≠ none) ∧
    ((generateAuthenticationOptions defaultConfig stAuthW 0 none "web" "c"
        "sidX").1.options.allowCredentials ≠ some []) := by
  refine ⟨rfl, ?_, ?_⟩
  · intro h
    rw [show (generateAuthenticationOptions defaultConfig stAuthW 0 none "web" "c"
        "sidX").1.options.allowCredentials
      = some [{ id := [1, 2, 3], transports := ["internal"] }] from rfl] at h
    exact Option.noConfusion h
  · intro h
    rw [show (generateAuthenticationOptions defaultConfig stAuthW 0 none "web" "c"
        "sidX").1.options.allowCredentials
      = some [{ id := [1, 2, 3], transports := ["internal"] }] from rfl] at h
    simp at h

/-- C5 (amended): generateAuthenticationOptions with a userId restricts the
allow-list to exactly that user's stored credentials (ids with
platform-adapted transports); with userId omitted it builds the allow-list
from every stored credential (a usernameless flow against all stored
credentials), leaving the allowCredentials field undefined exactly when no
credential is stored at all. -/
theorem authBegin_allow_list (cfg : Config) (st : Store) (now : Nat)
    (platform challenge sid uid : String) :
    (((generateAuthenticationOptions cfg st now (some uid) platform challenge
          sid).1.options.allowCredentials).getD []
        = (getPasskeys st (some uid)).map (fun p =>
            { id := p.credentialID
              transports := getTransportsForPlatform p.transports platform })) ∧
    (((generateAuthenticationOptions cfg st now none platform challenge
          sid).1.options.allowCredentials).getD []
        = (getPasskeys st none).map (fun p =>
            { id := p.credentialID
              transports := getTransportsForPlatform p.transports platform })) ∧
    (getPasskeys st none ≠ [] →
      (generateAuthenticationOptions cfg st now none platform challenge
          sid).1.options.allowCredentials ≠ none) := by
  refine ⟨?_, ?_, ?_⟩
  · unfold generateAuthenticationOptions
    dsimp only
    exact lenGuard_getD _
  · unfold generateAuthenticationOptions
    dsimp only
    exact lenGuard_getD _
  · intro h
    unfold generateAuthenticationOptions
    dsimp only
    have hlen : ((getPasskeys st none).map (fun p =>
        ({ id := p.credentialID
           transports := getTransportsForPlatform p.transports platform } :
          AllowCredential))).length > 0 := by
      cases hg : getPasskeys st none with
      | nil => exact absurd hg h
      | cons a t => simp [hg]
    rw [if_pos hlen]
    exact fun hx => Option.noConfusion hx

/-- Witness for C5 (amended): on stAuthW the allow-list for userId u1 and for
the omitted-userId call both consist of the single stored credential, and the
omitted-userId call does not leave the field undefined. -/
theorem authBegin_allow_list_witness :
    (((generateAuthenticationOptions defaultConfig stAuthW 0 (some "u1") "web" "c"
          "sidX").1.options.allowCredentials).getD []
        = (getPasskeys stAuthW (some "u1")).map (fun p =>
            { id := p.credentialID
              transports := getTransportsForPlatform p.transports "web" })) ∧
    (((generateAuthenticationOptions defaultConfig stAuthW 0 none "web" "c"
          "sidX").1.options.allowCredentials).getD []
        = (getPasskeys stAuthW none).map (fun p =>
            { id := p.credentialID
              transports := getTransportsForPlatform p.transports "web" })) ∧
    (getPasskeys stAuthW none ≠ []) ∧
    ((generateAuthenticationOptions defaultConfig stAuthW 0 none "web" "c"
        "sidX").1.options.allowCredentials ≠ none) :=
  ⟨(authBegin_allow_list defaultConfig stAuthW 0 "web" "c" "sidX" "u1").1,
   (authBegin_allow_list defaultConfig stAuthW 0 "web" "c" "sidX" "u1").2.1,
   by decide,
   (authBegin_allow_list defaultConfig stAuthW 0 "web" "c" "sidX" "u1").2.2 (by decide)⟩

/-- C3: the backend delegation outcome never flips the overall result: the
login-complete response always keeps success = true with the delegation
outcome attached as the independent backendAuthentication field; when no
backend credentials are configured for the authenticated userId the response
still has success = true, backendAuthentication.success = false, a message
naming the missing userId, the configured userId list, and a warning string. -/
theorem backend_delegation_never_flips (creds : List (String × BackendCredentials))
    (auth : AuthResult) (net : BackendNet)
    (hnone : alookup creds auth.userId = none) :
    (∀ (cm2 skip2 : Bool) (net2 : BackendNet)
        (creds2 : List (String × BackendCredentials)),
      (loginCompleteRespond cm2 creds2 auth skip2 net2).success = true) ∧
    ((loginCompleteRespond false creds auth false net).success = true ∧
     (loginCompleteRespond false creds auth false net).backendAuthentication.success
        = some false ∧
     (loginCompleteRespond false creds auth false net).backendAuthentication.message
        = "No backend credentials configured for user: " ++ auth.userId ∧
     (loginCompleteRespond false creds auth false net).backendAuthentication.availableUsers
        = some (getAvailableUsers creds) ∧
     (loginCompleteRespond false creds auth false net).warning
        = some "Passkey authentication successful but no backend credentials configured") := by
  have ha : authenticateUser false creds auth.userId net
      = .error ("No credentials configured for user: " ++ auth.userId) := by
    unfold authenticateUser
    rw [hnone]
    rfl
  have hg : getUserCredentials false creds auth.userId = .ok none := by
    unfold getUserCredentials
    rw [hnone]
    rfl
  constructor
  · intro cm2 skip2 net2 creds2
    unfold loginCompleteRespond
    dsimp only
    repeat' split
    all_goals rfl
  · unfold loginCompleteRespond
    rw [ha]
    dsimp only
    rw [hg]
    exact ⟨rfl, rfl, rfl, rfl, rfl⟩

/-- Witness for C3: user u1 has no entry in the credsW backend configuration;
the login-complete response still reports success with the no-credentials
side channel attached. -/
theorem backend_delegation_never_flips_witness :
    (alookup credsW authResW.userId = none) ∧
    ((∀ (cm2 skip2 : Bool) (net2 : BackendNet)
        (creds2 : List (String × BackendCredentials)),
      (loginCompleteRespond cm2 creds2 authResW skip2 net2).success = true) ∧
     ((loginCompleteRespond false credsW authResW false .networkError).success = true ∧
      (loginCompleteRespond false credsW authResW false
          .networkError).backendAuthentication.success = some false ∧
      (loginCompleteRespond false credsW authResW false
          .networkError).backendAuthentication.message
        = "No backend credentials configured for user: " ++ authResW.userId ∧
      (loginCompleteRespond false credsW authResW false
          .networkError).backendAuthentication.availableUsers
        = some (getAvailableUsers credsW) ∧
      (loginCompleteRespond false credsW authResW false .networkError).warning
        = some "Passkey authentication successful but no backend credentials configured")) :=
  ⟨rfl, backend_delegation_never_flips credsW authResW .networkError rfl⟩

/-- C2 (code-bug evidence): the fetch-then-delete consumption of the
completion calls is not an atomic take-and-remove. Interleaving the storage
calls of two concurrent consumers of the live session sid2 as getA, getB,
delA, delB makes both callers observe the session and proceed, violating the
claimed exactly-one-succeeds contract; only the fully serialized schedule
getA, delA, getB, delB makes the second caller observe NotFound. -/
theorem consume_not_atomic :
    (runRace 200 "sid2" [.get .A, .get .B, .del .A, .del .B]
        { store := stAuthW, observedA := none, observedB := none }).observedA
      = some (some authSessionW) ∧
    (runRace 200 "sid2" [.get .A, .get .B, .del .A, .del .B]
        { store := stAuthW, observedA := none, observedB := none }).observedB
      = some (some authSessionW) ∧
    (runRace 200 "sid2" [.get .A, .del .A, .get .B, .del .B]
        { store := stAuthW, observedA := none, observedB := none }).observedA
      = some (some authSessionW) ∧
    (runRace 200 "sid2" [.get .A, .del .A, .get .B, .del .B]
        { store := stAuthW, observedA := none, observedB := none }).observedB
      = some none := by
  exact ⟨rfl, rfl, rfl, rfl⟩

end PasskeyImp
